import Mathlib

/-!
Shallow embedding of the `ui_module` view-state and push-synchronization
engine (files `engine/models.py`, `engine/registry.py`,
`engine/store/view_store.py`, `engine/push_channel.py`,
`engine/view_manager.py`), together with theorems settling the claims
about it.

Modelling conventions:
* Python `dict[str, V]` values are modelled as insertion-ordered
  association lists `List (κ × V)`; `dlookup`, `dset`, `ddelete` and
  `dupdate` mirror `d[k]`, `d[k] = v`, `del d[k]` and `d.update(u)`.
* `datetime.utcnow()` is modelled by an explicit `now : Time` parameter
  (`Time := Nat`); each operation of the engine receives the current
  time once and uses it at every `utcnow()` call site it contains.
* Python values appearing in `props` / `payload` dictionaries are
  modelled by the inductive `PyVal`.
* Fallible operations return `Except PyError` / `Option`; Python
  truthiness tests (`if props:`, `if timeout:`, `x or default`) are
  translated explicitly at each site, as noted in comments.
-/

namespace UIModule

/-- Discrete model of `datetime` timestamps. -/
abbrev Time := Nat

/-- A Python value as it appears in `props` / `layout` / `payload`
dictionaries (`dict[str, Any]` in the source). -/
inductive PyVal : Type where
  | pynone
  | pybool (b : Bool)
  | pyint (n : Int)
  | pystr (s : String)
  | pylist (xs : List PyVal)
  | pydict (d : List (String × PyVal))

/-- Errors raised by the engine: `ValueError` is what
`ComponentType(component_type)` raises on an unparseable type string. -/
inductive PyError : Type where
  | valueError
  deriving DecidableEq, Repr

/-! ### Python dictionaries as insertion-ordered association lists -/

/-- Python `d.get(k)` / `d[k]`: the value of the first entry with key `k`. -/
def dlookup {κ V : Type} [DecidableEq κ] : List (κ × V) → κ → Option V
  | [], _ => none
  | (k', v) :: rest, k => if k' = k then some v else dlookup rest k

/-- Python `d[k] = v`: replace the value of an existing key in place, append a
new key at the end — Python dict assignment with insertion order. -/
def dset {κ V : Type} [DecidableEq κ] : List (κ × V) → κ → V → List (κ × V)
  | [], k, v => [(k, v)]
  | (k', v') :: rest, k, v =>
      if k' = k then (k', v) :: rest else (k', v') :: dset rest k v

/-- Python `del d[k]`. -/
def ddelete {κ V : Type} [DecidableEq κ] (d : List (κ × V)) (k : κ) : List (κ × V) :=
  d.filter (fun e => e.1 ≠ k)

/-- Python `base.update(upd)` (also `{**base}` then `.update`): every key of
`upd` is written into `base` in order. -/
def dupdate {κ V : Type} [DecidableEq κ] (base upd : List (κ × V)) : List (κ × V) :=
  upd.foldl (fun acc kv => dset acc kv.1 kv.2) base

/-- Python truthiness of an optional dictionary argument
(`if props:`): `None` and `{}` are falsy. -/
def pyTruthy {α : Type} : Option (List α) → Bool
  | none => false
  | some l => !l.isEmpty

/-- Python `x or {}` for an optional dictionary argument: `None` (and the
already-empty `{}`) becomes `{}`. -/
def pyOrEmpty {α : Type} : Option (List α) → List α
  | none => []
  | some l => l

/-- Python `supplied or fresh` for an optional id string: `None` and `""` fall
back to a freshly generated `uuid4` string (the `fresh` parameter). -/
def pyOrFresh (supplied : Option String) (fresh : String) : String :=
  match supplied with
  | some s => if s = "" then fresh else s
  | none => fresh

/-! ### `engine/models.py` -/

/-- Python `ComponentType` enum (`models.py`). -/
inductive ComponentType : Type where
  | text | chart | table | form | button | image
  | card | list | metric | progress | alert | custom
  deriving DecidableEq, Repr

/-- Python `ComponentType(s)` for a string `s`: the enum member whose value is
`s`, or a `ValueError` (modelled as `none`). -/
def ComponentType.ofString : String → Option ComponentType
  | "text" => some .text
  | "chart" => some .chart
  | "table" => some .table
  | "form" => some .form
  | "button" => some .button
  | "image" => some .image
  | "card" => some .card
  | "list" => some .list
  | "metric" => some .metric
  | "progress" => some .progress
  | "alert" => some .alert
  | "custom" => some .custom
  | _ => none

/-- Python `UIComponent` (`models.py`): a renderable UI component.  Recursive
through `children`, hence an inductive with accessor functions. -/
inductive UIComponent : Type where
  | mk (id : String) (component_type : ComponentType)
       (props : List (String × PyVal)) (styles : List (String × String))
       (children : List UIComponent)
       (created_at : Time) (updated_at : Time)

def UIComponent.id : UIComponent → String
  | .mk i _ _ _ _ _ _ => i

def UIComponent.component_type : UIComponent → ComponentType
  | .mk _ t _ _ _ _ _ => t

def UIComponent.props : UIComponent → List (String × PyVal)
  | .mk _ _ p _ _ _ _ => p

def UIComponent.styles : UIComponent → List (String × String)
  | .mk _ _ _ s _ _ _ => s

def UIComponent.children : UIComponent → List UIComponent
  | .mk _ _ _ _ c _ _ => c

def UIComponent.created_at : UIComponent → Time
  | .mk _ _ _ _ _ t _ => t

def UIComponent.updated_at : UIComponent → Time
  | .mk _ _ _ _ _ _ t => t

/-- Python `component.props = p` (field assignment). -/
def UIComponent.withProps : UIComponent → List (String × PyVal) → UIComponent
  | .mk i t _ s c ca ua, p => .mk i t p s c ca ua

/-- Python `component.styles = s` (field assignment). -/
def UIComponent.withStyles : UIComponent → List (String × String) → UIComponent
  | .mk i t p _ c ca ua, s => .mk i t p s c ca ua

/-- Python `component.updated_at = now` (field assignment). -/
def UIComponent.withUpdatedAt : UIComponent → Time → UIComponent
  | .mk i t p s c ca _, ua => .mk i t p s c ca ua

/-- Python `UIView` (`models.py`): a complete view/page containing components.
Field defaults mirror the dataclass defaults (`version: int = 1`). -/
structure UIView where
  id : String
  name : String
  components : List UIComponent := []
  layout : List (String × PyVal) := []
  metadata : List (String × PyVal) := []
  version : Nat := 1
  created_at : Time := 0
  updated_at : Time := 0

/-- Python `ViewUpdate` (`models.py`): an update pushed to connected clients. -/
structure ViewUpdate where
  view_id : String
  action : String
  payload : List (String × PyVal)
  version : Nat
  timestamp : Time := 0

/-! ### `engine/store/view_store.py` -/

/-- Python `InMemoryViewStore`. -/
structure InMemoryViewStore where
  views : List (String × UIView) := []
  history : List ViewUpdate := []

/-- Python `get`: a view by id, `None` on a miss. -/
def InMemoryViewStore.get (s : InMemoryViewStore) (view_id : String) : Option UIView :=
  dlookup s.views view_id

/-- Python `save`: sets `view.updated_at = utcnow()`, increments
`view.version`, and stores the view under its id.  Python mutates the
passed object, so the mutated view is returned alongside the store. -/
def InMemoryViewStore.save (s : InMemoryViewStore) (view : UIView) (now : Time) :
    InMemoryViewStore × UIView :=
  let view' := { view with updated_at := now, version := view.version + 1 }
  ({ s with views := dset s.views view'.id view' }, view')

/-- Python `delete`. -/
def InMemoryViewStore.delete (s : InMemoryViewStore) (view_id : String) :
    InMemoryViewStore × Bool :=
  if (dlookup s.views view_id).isSome then
    ({ s with views := ddelete s.views view_id }, true)
  else (s, false)

/-- Python `list_views`. -/
def InMemoryViewStore.list_views (s : InMemoryViewStore) : List String :=
  s.views.map Prod.fst

/-- Python `get_all`. -/
def InMemoryViewStore.get_all (s : InMemoryViewStore) : List UIView :=
  s.views.map Prod.snd

/-- Python `record_update`: appends to the history, then keeps the last 1000
entries (`self._history = self._history[-1000:]` once the length
exceeds 1000). -/
def InMemoryViewStore.record_update (s : InMemoryViewStore) (update : ViewUpdate) :
    InMemoryViewStore :=
  let history := s.history ++ [update]
  { s with
    history := if history.length > 1000 then history.drop (history.length - 1000) else history }

/-- Python `get_history`: optionally filters by view id, then returns
`history[-limit:]`.  `if view_id:` is Python truthiness, so `None` and
`""` both mean "no filter"; the slice `history[-limit:]` is the last
`limit` entries when `limit ≥ 1` but the whole list when `limit = 0`
(`history[-0:] == history[0:]`).  `limit` is modelled as a natural
number. -/
def InMemoryViewStore.get_history (s : InMemoryViewStore) (view_id : Option String)
    (limit : Nat) : List ViewUpdate :=
  let history :=
    match view_id with
    | some v => if v = "" then s.history else s.history.filter (fun u => u.view_id = v)
    | none => s.history
  if limit = 0 then history else history.drop (history.length - limit)

/-- Python `clear`. -/
def InMemoryViewStore.clear (_s : InMemoryViewStore) : InMemoryViewStore :=
  { views := [], history := [] }

/-! ### `engine/push_channel.py`

The callbacks themselves (Python coroutine functions) cannot be carried
as data in the embedding.  A client connection records whether it has a
callback (`hasCallback`); the *behaviour* of the callbacks on the update
being pushed is supplied to `push` as arguments: `cbOk cid = true` means
client `cid`'s callback returns normally, `false` means it raises.
Globally registered broadcast callbacks are carried as a list of opaque
identifiers; `bcOk` gives their behaviour.  Queue `put` on the
unbounded `asyncio.Queue` never raises. -/

/-- Python `ChannelType` enum. -/
inductive ChannelType : Type where
  | websocket | sse | callback
  deriving DecidableEq, Repr

/-- Python `ClientConnection` (dataclass). -/
structure ClientConnection where
  client_id : String
  channel_type : ChannelType := .callback
  subscribed_views : List String := []
  connected_at : Time := 0
  last_activity : Time := 0
  metadata : List (String × PyVal) := []
  hasCallback : Bool := false

/-- Python `set.add`: membership-preserving insert. -/
def setAdd (s : List String) (x : String) : List String :=
  if x ∈ s then s else s ++ [x]

/-- Python `set.discard`. -/
def setDiscard (s : List String) (x : String) : List String :=
  s.filter (fun y => y ≠ x)

/-- Python `PushChannel` state: `_clients`, `_queues`, `_broadcast_callbacks`. -/
structure PushChannel where
  clients : List (String × ClientConnection) := []
  queues : List (String × List ViewUpdate) := []
  broadcast_callbacks : List Nat := []

/-- Python `connect`: registers a fresh `ClientConnection` (empty subscription
set) and a fresh empty queue under `client_id`, replacing any existing
entry for that id. -/
def PushChannel.connect (ch : PushChannel) (client_id : String)
    (channel_type : ChannelType) (hasCallback : Bool)
    (metadata : Option (List (String × PyVal))) (now : Time) :
    PushChannel × ClientConnection :=
  let connection : ClientConnection :=
    { client_id := client_id, channel_type := channel_type,
      subscribed_views := [], connected_at := now, last_activity := now,
      metadata := pyOrEmpty metadata, hasCallback := hasCallback }
  ({ ch with clients := dset ch.clients client_id connection,
             queues := dset ch.queues client_id [] },
   connection)

/-- Python `disconnect`. -/
def PushChannel.disconnect (ch : PushChannel) (client_id : String) :
    PushChannel × Bool :=
  if (dlookup ch.clients client_id).isSome then
    ({ ch with clients := ddelete ch.clients client_id,
               queues := ddelete ch.queues client_id }, true)
  else (ch, false)

/-- Python `subscribe`: adds `view_id` to the client's subscription set;
`false` if the client is unknown. -/
def PushChannel.subscribe (ch : PushChannel) (client_id view_id : String)
    (now : Time) : PushChannel × Bool :=
  match dlookup ch.clients client_id with
  | some c =>
      let c' := { c with subscribed_views := setAdd c.subscribed_views view_id,
                         last_activity := now }
      ({ ch with clients := dset ch.clients client_id c' }, true)
  | none => (ch, false)

/-- Python `unsubscribe`. -/
def PushChannel.unsubscribe (ch : PushChannel) (client_id view_id : String)
    (now : Time) : PushChannel × Bool :=
  match dlookup ch.clients client_id with
  | some c =>
      let c' := { c with subscribed_views := setDiscard c.subscribed_views view_id,
                         last_activity := now }
      ({ ch with clients := dset ch.clients client_id c' }, true)
  | none => (ch, false)

/-- The subscription test of `push` / `get_subscribers`:
`update.view_id in connection.subscribed_views or "*" in
connection.subscribed_views`. -/
def wantsUpdate (c : ClientConnection) (view_id : String) : Bool :=
  c.subscribed_views.contains view_id || c.subscribed_views.contains "*"

/-- The result of one `push` call: the final channel state, the returned
`delivered_count` (`recipients`), the ids of the clients actually
delivered to (in visit order), and the identifiers of the broadcast
callbacks invoked. -/
structure PushResult where
  channel : PushChannel
  recipients : Nat
  delivered : List String
  broadcastInvoked : List Nat

/-- One iteration of the `for client_id, connection in
self._clients.items()` loop of `push`: if the connection is subscribed
to the update's view (or to `"*"`), deliver via the callback (which may
raise — `cbOk` false — in which case the exception is caught and
nothing is counted) or by appending to the client's queue; on success
`last_activity` is refreshed and `recipients` is incremented.  A missing
queue would raise `KeyError`, likewise caught by the `except` block. -/
def deliverTo (update : ViewUpdate) (cbOk : String → Bool) (now : Time)
    (st : PushChannel × Nat × List String) (entry : String × ClientConnection) :
    PushChannel × Nat × List String :=
  let ch := st.1
  let recipients := st.2.1
  let delivered := st.2.2
  let client_id := entry.1
  let connection := entry.2
  if wantsUpdate connection update.view_id then
    if connection.hasCallback then
      if cbOk client_id then
        ({ ch with clients := dset ch.clients client_id { connection with last_activity := now } },
         recipients + 1, delivered ++ [client_id])
      else
        (ch, recipients, delivered)
    else
      match dlookup ch.queues client_id with
      | some q =>
          ({ ch with
              queues := dset ch.queues client_id (q ++ [update]),
              clients := dset ch.clients client_id { connection with last_activity := now } },
           recipients + 1, delivered ++ [client_id])
      | none => (ch, recipients, delivered)
  else
    (ch, recipients, delivered)

/-- Python `push`: visits every client in insertion order, delivering to the
subscribed ones; then invokes every broadcast callback (their failures
are caught and logged, so all of them are invoked and none affects the
state or the returned count — the result does not depend on `bcOk`);
returns `recipients`. -/
def PushChannel.push (ch : PushChannel) (update : ViewUpdate)
    (cbOk : String → Bool) (_bcOk : Nat → Bool) (now : Time) : PushResult :=
  let folded := ch.clients.foldl (deliverTo update cbOk now) (ch, 0, [])
  { channel := folded.1, recipients := folded.2.1, delivered := folded.2.2,
    broadcastInvoked := ch.broadcast_callbacks }

/-- The observable outcome of `get_update`. -/
inductive GetUpdateOutcome : Type where
  /-- Python `client_id not in self._queues`: returns `None` immediately. -/
  | noClient
  /-- the queue had an update: it is returned (and dequeued). -/
  | received (u : ViewUpdate)
  /-- empty queue, falsy timeout (`None` or `0`): `await q.get()`
  blocks until an update arrives. -/
  | blocks
  /-- empty queue, truthy (nonzero) timeout: `asyncio.wait_for` expires
  and the `except asyncio.TimeoutError` branch returns `None`.  (A
  negative timeout expires immediately.) -/
  | timesOut

/-- Python `get_update`: §`push_channel.py` lines 135–144.  `if timeout:` is
Python float truthiness, so a timeout of `0` (like `None`) takes the
plain blocking `await` branch; the timeout is modelled as an exact
rational. -/
def PushChannel.get_update (ch : PushChannel) (client_id : String)
    (timeout : Option ℚ) : GetUpdateOutcome × PushChannel :=
  match dlookup ch.queues client_id with
  | none => (.noClient, ch)
  | some q =>
      match q with
      | u :: rest => (.received u, { ch with queues := dset ch.queues client_id rest })
      | [] =>
          match timeout with
          | some t => if t = 0 then (.blocks, ch) else (.timesOut, ch)
          | none => (.blocks, ch)

/-- Python `add_broadcast_callback`. -/
def PushChannel.add_broadcast_callback (ch : PushChannel) (cb : Nat) : PushChannel :=
  { ch with broadcast_callbacks := ch.broadcast_callbacks ++ [cb] }

/-- Python `get_client`. -/
def PushChannel.get_client (ch : PushChannel) (client_id : String) :
    Option ClientConnection :=
  dlookup ch.clients client_id

/-- Python `list_clients`. -/
def PushChannel.list_clients (ch : PushChannel) : List ClientConnection :=
  ch.clients.map Prod.snd

/-- Python `get_subscribers`. -/
def PushChannel.get_subscribers (ch : PushChannel) (view_id : String) :
    List ClientConnection :=
  (ch.clients.map Prod.snd).filter (fun c => wantsUpdate c view_id)

/-! ### `engine/registry.py` -/

/-- Python `ComponentDefinition` (dataclass).  The `validator` callable is
carried as a presence flag; it is never consulted by
`create_component`. -/
structure ComponentDefinition where
  component_type : ComponentType
  name : String
  description : String
  schema : PyVal
  default_props : List (String × PyVal) := []
  default_styles : List (String × String) := []
  hasValidator : Bool := false
  registered_at : Time := 0

/-- The `.value` string of a `ComponentType` member. -/
def ComponentType.value : ComponentType → String
  | .text => "text"
  | .chart => "chart"
  | .table => "table"
  | .form => "form"
  | .button => "button"
  | .image => "image"
  | .card => "card"
  | .list => "list"
  | .metric => "metric"
  | .progress => "progress"
  | .alert => "alert"
  | .custom => "custom"

/-- Python `ComponentRegistry` state: `_components`, a dict keyed by
`ComponentType`. -/
structure ComponentRegistry where
  components : List (ComponentType × ComponentDefinition) := []

/-- Python `register`: inserts or replaces the definition for its type. -/
def ComponentRegistry.register (reg : ComponentRegistry)
    (definition : ComponentDefinition) : ComponentRegistry :=
  { reg with components := dset reg.components definition.component_type definition }

/-- Python `get`. -/
def ComponentRegistry.get (reg : ComponentRegistry) (component_type : ComponentType) :
    Option ComponentDefinition :=
  dlookup reg.components component_type

/-- Python `list_components`. -/
def ComponentRegistry.list_components (reg : ComponentRegistry) :
    List ComponentDefinition :=
  reg.components.map Prod.snd

/-- The `builtins` list of `_register_builtins`, schemas transcribed as
`PyVal` dictionaries. -/
def builtinDefinitions : List ComponentDefinition :=
  [{ component_type := .text, name := "Text",
     description := "Display text content with optional formatting",
     schema := .pydict [("type", .pystr "object"),
       ("properties", .pydict [
         ("content", .pydict [("type", .pystr "string")]),
         ("variant", .pydict [("type", .pystr "string"),
           ("enum", .pylist [.pystr "h1", .pystr "h2", .pystr "h3",
             .pystr "body", .pystr "caption"])])]),
       ("required", .pylist [.pystr "content"])],
     default_props := [("variant", .pystr "body")] },
   { component_type := .chart, name := "Chart",
     description := "Display data visualizations (line, bar, pie, etc.)",
     schema := .pydict [("type", .pystr "object"),
       ("properties", .pydict [
         ("chart_type", .pydict [("type", .pystr "string"),
           ("enum", .pylist [.pystr "line", .pystr "bar", .pystr "pie",
             .pystr "area", .pystr "scatter", .pystr "donut"])]),
         ("data", .pydict [("type", .pystr "array")]),
         ("title", .pydict [("type", .pystr "string")]),
         ("x_axis", .pydict [("type", .pystr "string")]),
         ("y_axis", .pydict [("type", .pystr "string")])]),
       ("required", .pylist [.pystr "chart_type", .pystr "data"])],
     default_props := [("chart_type", .pystr "line")] },
   { component_type := .table, name := "Table",
     description := "Display tabular data with optional sorting/filtering",
     schema := .pydict [("type", .pystr "object"),
       ("properties", .pydict [
         ("columns", .pydict [("type", .pystr "array"),
           ("items", .pydict [("type", .pystr "object")])]),
         ("rows", .pydict [("type", .pystr "array"),
           ("items", .pydict [("type", .pystr "object")])]),
         ("sortable", .pydict [("type", .pystr "boolean")]),
         ("filterable", .pydict [("type", .pystr "boolean")])]),
       ("required", .pylist [.pystr "columns", .pystr "rows"])],
     default_props := [("sortable", .pybool true), ("filterable", .pybool false)] },
   { component_type := .form, name := "Form",
     description := "Interactive form with input fields",
     schema := .pydict [("type", .pystr "object"),
       ("properties", .pydict [
         ("fields", .pydict [("type", .pystr "array"),
           ("items", .pydict [("type", .pystr "object")])]),
         ("submit_label", .pydict [("type", .pystr "string")]),
         ("action", .pydict [("type", .pystr "string")])]),
       ("required", .pylist [.pystr "fields"])],
     default_props := [("submit_label", .pystr "Submit")] },
   { component_type := .metric, name := "Metric",
     description := "Display a single metric/KPI with optional trend",
     schema := .pydict [("type", .pystr "object"),
       ("properties", .pydict [
         ("label", .pydict [("type", .pystr "string")]),
         ("value", .pydict [("type", .pylist [.pystr "string", .pystr "number"])]),
         ("unit", .pydict [("type", .pystr "string")]),
         ("trend", .pydict [("type", .pystr "string"),
           ("enum", .pylist [.pystr "up", .pystr "down", .pystr "flat"])]),
         ("trend_value", .pydict [("type", .pystr "string")])]),
       ("required", .pylist [.pystr "label", .pystr "value"])] },
   { component_type := .card, name := "Card",
     description := "Container card with title and content",
     schema := .pydict [("type", .pystr "object"),
       ("properties", .pydict [
         ("title", .pydict [("type", .pystr "string")]),
         ("subtitle", .pydict [("type", .pystr "string")]),
         ("content", .pydict [("type", .pystr "string")])])] },
   { component_type := .alert, name := "Alert",
     description := "Display alert/notification message",
     schema := .pydict [("type", .pystr "object"),
       ("properties", .pydict [
         ("message", .pydict [("type", .pystr "string")]),
         ("severity", .pydict [("type", .pystr "string"),
           ("enum", .pylist [.pystr "info", .pystr "success",
             .pystr "warning", .pystr "error"])]),
         ("dismissible", .pydict [("type", .pystr "boolean")])]),
       ("required", .pylist [.pystr "message"])],
     default_props := [("severity", .pystr "info"), ("dismissible", .pybool true)] },
   { component_type := .progress, name := "Progress",
     description := "Display progress indicator",
     schema := .pydict [("type", .pystr "object"),
       ("properties", .pydict [
         ("value", .pydict [("type", .pystr "number"),
           ("minimum", .pyint 0), ("maximum", .pyint 100)]),
         ("label", .pydict [("type", .pystr "string")]),
         ("variant", .pydict [("type", .pystr "string"),
           ("enum", .pylist [.pystr "linear", .pystr "circular"])])]),
       ("required", .pylist [.pystr "value"])],
     default_props := [("variant", .pystr "linear")] }]

/-- Python `ComponentRegistry()` — `__init__` calls `_register_builtins`,
which stores every builtin definition under its type. -/
def defaultRegistry : ComponentRegistry :=
  builtinDefinitions.foldl (fun reg defn => reg.register defn) { components := [] }

/-- Python `ComponentRegistry.create_component`: looks up the definition
(absent definition means empty defaults, not an error), merges
caller-supplied props/styles over the defaults (caller wins key by
key — dict `update`), and returns a fresh `UIComponent`.  `if props:`
and `if styles:` are Python truthiness tests. -/
def ComponentRegistry.create_component (reg : ComponentRegistry)
    (component_id : String) (component_type : ComponentType)
    (props : Option (List (String × PyVal)))
    (styles : Option (List (String × String))) (now : Time) : UIComponent :=
  let defn := dlookup reg.components component_type
  let base_props := match defn with | some d => d.default_props | none => []
  let base_styles := match defn with | some d => d.default_styles | none => []
  let merged_props :=
    if pyTruthy props then dupdate base_props (pyOrEmpty props) else base_props
  let merged_styles :=
    if pyTruthy styles then dupdate base_styles (pyOrEmpty styles) else base_styles
  .mk component_id component_type merged_props merged_styles [] now now

/-! ### `engine/view_manager.py`

The manager holds the store, the push channel and the registry.  The
render adapters (`_adapters`) are external collaborators (HTML/JSON
rendering); they carry no view state and are outside the modelled core.
Each operation takes the identity-free effects of the Python original
as explicit parameters: `now` for `datetime.utcnow()`, `fresh` for
`str(uuid.uuid4())`, and `cbOk` / `bcOk` for the behaviour of
subscriber and broadcast callbacks during the embedded `push`. -/

/-- A style dict `dict[str,str]` as a `PyVal`. -/
def stylesToPy (s : List (String × String)) : PyVal :=
  .pydict (s.map (fun e => (e.1, PyVal.pystr e.2)))

mutual

/-- Python `UIComponent.to_dict`, timestamps abstracted to their tick. -/
def UIComponent.toPy : UIComponent → PyVal
  | .mk i t p s c ca ua =>
      .pydict [("id", .pystr i), ("type", .pystr t.value),
        ("props", .pydict p), ("styles", stylesToPy s),
        ("children", .pylist (UIComponent.listToPy c)),
        ("created_at", .pyint ca), ("updated_at", .pyint ua)]

/-- Python `[c.to_dict() for c in children]`. -/
def UIComponent.listToPy : List UIComponent → List PyVal
  | [] => []
  | c :: rest => UIComponent.toPy c :: UIComponent.listToPy rest

end

/-- Python `UIView.to_dict`, timestamps abstracted to their tick. -/
def UIView.to_dict (v : UIView) : List (String × PyVal) :=
  [("id", .pystr v.id), ("name", .pystr v.name),
    ("components", .pylist (UIComponent.listToPy v.components)),
    ("layout", .pydict v.layout), ("metadata", .pydict v.metadata),
    ("version", .pyint v.version),
    ("created_at", .pyint v.created_at), ("updated_at", .pyint v.updated_at)]

/-- An optional props dict in an update payload (`"props": props`). -/
def optPropsToPy : Option (List (String × PyVal)) → PyVal
  | none => .pynone
  | some p => .pydict p

/-- An optional styles dict in an update payload (`"styles": styles`). -/
def optStylesToPy : Option (List (String × String)) → PyVal
  | none => .pynone
  | some s => stylesToPy s

/-- An optional integer in an update payload (`"position": position`). -/
def optNatToPy : Option Nat → PyVal
  | none => .pynone
  | some n => .pyint n

/-- Python `list.insert(position, x)` for a non-negative position: Python
clamps a position past the end to an append. -/
def pyInsert (l : List UIComponent) (position : Nat) (x : UIComponent) :
    List UIComponent :=
  if position ≥ l.length then l ++ [x] else l.insertIdx position x

/-- The `for c in view.components: if c.id == component_id` search of
`update_component` (first match, then `break`). -/
def findComponent : List UIComponent → String → Option UIComponent
  | [], _ => none
  | c :: rest, component_id =>
      if c.id = component_id then some c else findComponent rest component_id

/-- In-place mutation of the component found by `findComponent`: the
object inside `view.components` is updated (first match only). -/
def updateFirst (f : UIComponent → UIComponent) :
    List UIComponent → String → List UIComponent
  | [], _ => []
  | c :: rest, component_id =>
      if c.id = component_id then f c :: rest
      else c :: updateFirst f rest component_id

/-- The body of `update_component` applied to the found component:
`component.props.update(props)` when `props` is truthy,
`component.styles.update(styles)` when `styles` is truthy, then
`component.updated_at = utcnow()`. -/
def applyComponentUpdate (props : Option (List (String × PyVal)))
    (styles : Option (List (String × String))) (now : Time)
    (c : UIComponent) : UIComponent :=
  let c := if pyTruthy props then c.withProps (dupdate c.props (pyOrEmpty props)) else c
  let c := if pyTruthy styles then c.withStyles (dupdate c.styles (pyOrEmpty styles)) else c
  c.withUpdatedAt now

/-- Python `ViewManager` state. -/
structure ViewManager where
  store : InMemoryViewStore := {}
  push_channel : PushChannel := {}
  registry : ComponentRegistry := defaultRegistry

/-- Python `ViewManager()` with all defaults. -/
def ViewManager.init : ViewManager := {}

/-- Python `create_view`: builds a `UIView` (dataclass default `version = 1`)
with a generated id when none (or `""`) is supplied, and saves it; the
store's `save` is what stamps `updated_at` and bumps the version.  No
update is recorded and nothing is pushed. -/
def ViewManager.create_view (m : ViewManager) (name : String)
    (view_id : Option String) (layout metadata : Option (List (String × PyVal)))
    (fresh : String) (now : Time) : ViewManager × UIView :=
  let view : UIView :=
    { id := pyOrFresh view_id fresh, name := name, components := [],
      layout := pyOrEmpty layout, metadata := pyOrEmpty metadata,
      version := 1, created_at := now, updated_at := now }
  let saved := m.store.save view now
  ({ m with store := saved.1 }, saved.2)

/-- Python `get_view`. -/
def ViewManager.get_view (m : ViewManager) (view_id : String) : Option UIView :=
  m.store.get view_id

/-- Python `delete_view`. -/
def ViewManager.delete_view (m : ViewManager) (view_id : String) :
    ViewManager × Bool :=
  let deleted := m.store.delete view_id
  ({ m with store := deleted.1 }, deleted.2)

/-- Python `list_views`. -/
def ViewManager.list_views (m : ViewManager) : List UIView :=
  m.store.get_all

/-- Python `create_component`: a string type is parsed with
`ComponentType(component_type)` — `ValueError` on an unknown string —
then the registry instantiates the component; a missing id falls back
to a fresh uuid. -/
def ViewManager.create_component (m : ViewManager)
    (component_type : String ⊕ ComponentType)
    (props : Option (List (String × PyVal)))
    (styles : Option (List (String × String)))
    (component_id : Option String) (fresh : String) (now : Time) :
    Except PyError UIComponent :=
  match component_type with
  | .inl s =>
      match ComponentType.ofString s with
      | none => .error .valueError
      | some ct =>
          .ok (m.registry.create_component (pyOrFresh component_id fresh) ct props styles now)
  | .inr ct =>
      .ok (m.registry.create_component (pyOrFresh component_id fresh) ct props styles now)

/-- Python `add_component`: inserts the component (append, or `list.insert` at
`position`), stamps `view.updated_at`, saves, records and pushes an
`add_component` update tagged with the post-save version. -/
def ViewManager.add_component (m : ViewManager) (view_id : String)
    (component : UIComponent) (position : Option Nat)
    (now : Time) (cbOk : String → Bool) (bcOk : Nat → Bool) :
    ViewManager × Option UIView :=
  match m.store.get view_id with
  | none => (m, none)
  | some view =>
      let components :=
        match position with
        | some p => pyInsert view.components p component
        | none => view.components ++ [component]
      let view := { view with components := components, updated_at := now }
      let saved := m.store.save view now
      let update : ViewUpdate :=
        { view_id := view_id, action := "add_component",
          payload := [("component", component.toPy), ("position", optNatToPy position)],
          version := saved.2.version, timestamp := now }
      let store := saved.1.record_update update
      let pushed := m.push_channel.push update cbOk bcOk now
      ({ m with store := store, push_channel := pushed.channel }, some saved.2)

/-- Python `update_component`: finds the component by id (first match), merges
the supplied props/styles into it and stamps its `updated_at`, stamps
and saves the view, then records and pushes an `update_component`
update carrying the supplied deltas. -/
def ViewManager.update_component (m : ViewManager) (view_id component_id : String)
    (props : Option (List (String × PyVal)))
    (styles : Option (List (String × String)))
    (now : Time) (cbOk : String → Bool) (bcOk : Nat → Bool) :
    ViewManager × Option UIComponent :=
  match m.store.get view_id with
  | none => (m, none)
  | some view =>
      match findComponent view.components component_id with
      | none => (m, none)
      | some component =>
          let component' := applyComponentUpdate props styles now component
          let view := { view with
            components := updateFirst (applyComponentUpdate props styles now)
              view.components component_id,
            updated_at := now }
          let saved := m.store.save view now
          let update : ViewUpdate :=
            { view_id := view_id, action := "update_component",
              payload := [("component_id", .pystr component_id),
                ("props", optPropsToPy props), ("styles", optStylesToPy styles)],
              version := saved.2.version, timestamp := now }
          let store := saved.1.record_update update
          let pushed := m.push_channel.push update cbOk bcOk now
          ({ m with store := store, push_channel := pushed.channel }, some component')

/-- Python `remove_component`: `view.components` is reassigned to the filtered
list (this mutates the stored view object even when nothing was
removed); when the length did not change the function returns `False`
without saving, recording or pushing; otherwise it stamps, saves,
records and pushes a `remove_component` update. -/
def ViewManager.remove_component (m : ViewManager) (view_id component_id : String)
    (now : Time) (cbOk : String → Bool) (bcOk : Nat → Bool) :
    ViewManager × Bool :=
  match m.store.get view_id with
  | none => (m, false)
  | some view =>
      let original_len := view.components.length
      let view := { view with
        components := view.components.filter (fun c => c.id ≠ component_id) }
      if view.components.length = original_len then
        ({ m with store := { m.store with views := dset m.store.views view_id view } },
         false)
      else
        let view := { view with updated_at := now }
        let saved := m.store.save view now
        let update : ViewUpdate :=
          { view_id := view_id, action := "remove_component",
            payload := [("component_id", .pystr component_id)],
            version := saved.2.version, timestamp := now }
        let store := saved.1.record_update update
        let pushed := m.push_channel.push update cbOk bcOk now
        ({ m with store := store, push_channel := pushed.channel }, true)

/-- Python `push_view`: records and pushes a `full` update carrying the whole
serialized view; the view itself is not mutated. -/
def ViewManager.push_view (m : ViewManager) (view_id : String)
    (now : Time) (cbOk : String → Bool) (bcOk : Nat → Bool) :
    ViewManager × Nat :=
  match m.store.get view_id with
  | none => (m, 0)
  | some view =>
      let update : ViewUpdate :=
        { view_id := view_id, action := "full",
          payload := view.to_dict,
          version := view.version, timestamp := now }
      let store := m.store.record_update update
      let pushed := m.push_channel.push update cbOk bcOk now
      ({ m with store := store, push_channel := pushed.channel }, pushed.recipients)

/-! ### Derived predicates and concrete example values -/

/-- Whether one iteration of the `push` loop delivers to a client
entry: the client must be subscribed to the update's view (or `"*"`),
and — when it is a callback client — its callback must not raise. -/
def pushDelivers (u : ViewUpdate) (cbOk : String → Bool)
    (e : String × ClientConnection) : Bool :=
  wantsUpdate e.2 u.view_id && (!e.2.hasCallback || cbOk e.1)

/-- An update for view `"v1"`. -/
def exU1 : ViewUpdate :=
  { view_id := "v1", action := "full", payload := [], version := 1, timestamp := 0 }

/-- An update for view `"v2"`. -/
def exU2 : ViewUpdate :=
  { view_id := "v2", action := "full", payload := [], version := 1, timestamp := 1 }

/-- A store whose history already holds `exU1, exU2`. -/
def exStore : InMemoryViewStore := { views := [], history := [exU1, exU2] }

/-- A metric component with props `{"label": "L", "value": 1}`. -/
def exComponent : UIComponent :=
  .mk "comp1" .metric [("label", .pystr "L"), ("value", .pyint 1)] [] [] 0 0

/-- A view `"v1"` containing `exComponent`. -/
def exView : UIView :=
  { id := "v1", name := "Dash", components := [exComponent], version := 2 }

/-- A manager whose store holds `exView` under `"v1"`. -/
def exManager : ViewManager := { store := { views := [("v1", exView)] } }

/-- A view `"v1"` with no components. -/
def exEmptyView : UIView := { id := "v1", name := "Empty", components := [], version := 2 }

/-- A manager whose store holds the empty view `"v1"`. -/
def exManagerEmptyV1 : ViewManager := { store := { views := [("v1", exEmptyView)] } }

/-- Callback client `A`, subscribed to `"v1"`. -/
def connA : ClientConnection :=
  { client_id := "A", subscribed_views := ["v1"], hasCallback := true }

/-- Callback client `B`, subscribed to the wildcard `"*"`. -/
def connB : ClientConnection :=
  { client_id := "B", subscribed_views := ["*"], hasCallback := true }

/-- Callback client `B`, subscribed to `"v1"`. -/
def connB1 : ClientConnection :=
  { client_id := "B", subscribed_views := ["v1"], hasCallback := true }

/-- Channel with clients `A` (subscribed to `"v1"`) and `B` (subscribed
to `"*"`), two broadcast callbacks registered. -/
def exChannelAB : PushChannel :=
  { clients := [("A", connA), ("B", connB)], queues := [("A", []), ("B", [])],
    broadcast_callbacks := [0, 1] }

/-- Channel with clients `A` and `B` both subscribed to `"v1"`. -/
def exChannelFail : PushChannel :=
  { clients := [("A", connA), ("B", connB1)], queues := [("A", []), ("B", [])],
    broadcast_callbacks := [0, 1] }

/-- Channel with one queue-mode client `"c1"` whose queue is empty. -/
def exChannelQueue : PushChannel :=
  { clients := [("c1", { client_id := "c1" })], queues := [("c1", [])] }

/-- The Python-truthiness view filter of `get_history`: `None` and `""`
mean no filtering, any other string keeps only that view's updates. -/
def pyHistFilter (h : List ViewUpdate) (vid : Option String) : List ViewUpdate :=
  match vid with
  | some v => if v = "" then h else h.filter (fun u => u.view_id = v)
  | none => h

/-! ## Theorems

First the dictionary lemmas, then the per-component lemmas, then one
theorem per claim (with witnesses / counterexamples). -/

section DictLemmas

variable {κ V : Type} [DecidableEq κ]

theorem dlookup_dset (d : List (κ × V)) (k : κ) (v : V) (k' : κ) :
    dlookup (dset d k v) k' = if k = k' then some v else dlookup d k' := by
  induction d with
  | nil =>
      by_cases h : k = k' <;> simp [dset, dlookup, h]
  | cons e rest ih =>
      obtain ⟨k₀, v₀⟩ := e
      by_cases h : k₀ = k
      · subst h
        by_cases h' : k₀ = k' <;> simp [dset, dlookup, h']
      · by_cases h' : k₀ = k'
        · subst h'
          have : ¬ k = k₀ := fun hkk => h hkk.symm
          simp [dset, dlookup, h, this]
        · simp [dset, dlookup, h, h', ih]

theorem dlookup_eq_none (d : List (κ × V)) (k : κ) (h : k ∉ d.map Prod.fst) :
    dlookup d k = none := by
  induction d with
  | nil => rfl
  | cons e rest ih =>
      obtain ⟨k₀, v₀⟩ := e
      simp only [List.map_cons, List.mem_cons] at h
      push_neg at h
      have hne : ¬ k₀ = k := fun hkk => h.1 hkk.symm
      simp [dlookup, hne, ih h.2]

theorem dlookup_dupdate (base upd : List (κ × V))
    (h : (upd.map Prod.fst).Nodup) (k : κ) :
    dlookup (dupdate base upd) k =
      match dlookup upd k with
      | some v => some v
      | none => dlookup base k := by
  induction upd generalizing base with
  | nil => simp [dupdate, dlookup]
  | cons e rest ih =>
      obtain ⟨k₀, v₀⟩ := e
      simp only [List.map_cons, List.nodup_cons] at h
      have step : dupdate base ((k₀, v₀) :: rest) = dupdate (dset base k₀ v₀) rest := rfl
      rw [step, ih _ h.2]
      by_cases hk : k₀ = k
      · subst hk
        have hnone : dlookup rest k₀ = none := dlookup_eq_none rest k₀ h.1
        simp [dlookup, hnone, dlookup_dset]
      · simp [dlookup, hk, dlookup_dset]

theorem dset_of_dlookup_eq (d : List (κ × V)) (k : κ) (v : V)
    (h : dlookup d k = some v) : dset d k v = d := by
  induction d with
  | nil => simp [dlookup] at h
  | cons e rest ih =>
      obtain ⟨k₀, v₀⟩ := e
      by_cases hk : k₀ = k
      · subst hk
        have hv : v₀ = v := by simpa [dlookup] using h
        subst hv
        simp [dset]
      · simp only [dlookup, hk, if_false] at h
        simp [dset, hk, ih h]

theorem isSome_dlookup_dset (d : List (κ × V)) (k : κ) (v : V) (k' : κ)
    (h : (dlookup d k).isSome = true) :
    (dlookup (dset d k v) k').isSome = (dlookup d k').isSome := by
  rw [dlookup_dset]
  by_cases hk : k = k'
  · subst hk; simp [h]
  · simp [hk]

end DictLemmas

section ComponentLemmas

theorem applyComponentUpdate_props (props : Option (List (String × PyVal)))
    (styles : Option (List (String × String))) (now : Time) (c : UIComponent) :
    (applyComponentUpdate props styles now c).props
      = if pyTruthy props then dupdate c.props (pyOrEmpty props) else c.props := by
  cases c
  by_cases hp : pyTruthy props <;> by_cases hs : pyTruthy styles <;>
    simp [applyComponentUpdate, UIComponent.withProps, UIComponent.withStyles,
      UIComponent.withUpdatedAt, UIComponent.props, UIComponent.styles, hp, hs]

theorem applyComponentUpdate_styles (props : Option (List (String × PyVal)))
    (styles : Option (List (String × String))) (now : Time) (c : UIComponent) :
    (applyComponentUpdate props styles now c).styles
      = if pyTruthy styles then dupdate c.styles (pyOrEmpty styles) else c.styles := by
  cases c
  by_cases hp : pyTruthy props <;> by_cases hs : pyTruthy styles <;>
    simp [applyComponentUpdate, UIComponent.withProps, UIComponent.withStyles,
      UIComponent.withUpdatedAt, UIComponent.props, UIComponent.styles, hp, hs]

theorem applyComponentUpdate_updated_at (props : Option (List (String × PyVal)))
    (styles : Option (List (String × String))) (now : Time) (c : UIComponent) :
    (applyComponentUpdate props styles now c).updated_at = now := by
  cases c
  by_cases hp : pyTruthy props <;> by_cases hs : pyTruthy styles <;>
    simp [applyComponentUpdate, UIComponent.withProps, UIComponent.withStyles,
      UIComponent.withUpdatedAt, UIComponent.updated_at, hp, hs]

end ComponentLemmas

/-! ## Claim theorems -/

/-- C1: the claim says that after `k` successful `save` calls
(including the one `create_view` performs), the view's version is `k`,
and the repository's own test (`test_view_manager.py::test_create_view`)
asserts `view.version == 1` right after `create_view`.  The code
disagrees with both: `UIView` is constructed with the dataclass default
`version = 1` and the store's `save` then increments it, so the view
returned by `create_view` — one successful save in total — already has
version `2`. -/
theorem create_view_version_is_two :
    ((ViewManager.init.create_view "Test Dashboard" none none none "view-1" 0).2.version = 2)
    ∧ (((ViewManager.init.create_view "Test Dashboard" none none none "view-1" 0).1.get_view
        "view-1").map UIView.version = some 2) :=
  ⟨rfl, rfl⟩

/-- C2: `save` upserts the view under its id, stamps `updated_at` with
the current time and increments the version by exactly one; every other
view and the history are untouched.  The statement quantifies over an
arbitrary prior store, so it covers the first insertion of the id and a
subsequent update uniformly — the behaviour is the same in both
cases. -/
theorem save_upserts_and_bumps (s : InMemoryViewStore) (view : UIView) (now : Time) :
    ((s.save view now).2.version = view.version + 1)
    ∧ ((s.save view now).2.updated_at = now)
    ∧ ((s.save view now).2.id = view.id)
    ∧ ((s.save view now).1.get view.id = some (s.save view now).2)
    ∧ (∀ other, other ≠ view.id → (s.save view now).1.get other = s.get other)
    ∧ ((s.save view now).1.history = s.history) := by
  refine ⟨rfl, rfl, rfl, ?_, ?_, rfl⟩
  · show dlookup (dset s.views view.id _) view.id = _
    rw [dlookup_dset]
    simp
    rfl
  · intro other hother
    have hne : ¬ view.id = other := fun h => hother h.symm
    show dlookup (dset s.views view.id _) other = dlookup s.views other
    rw [dlookup_dset]
    simp [hne]

/-- C10: `connect` installs a brand-new connection with an empty
subscription set and a brand-new empty queue under `client_id` —
whatever queue (and pending updates) or subscriptions existed for that
id beforehand are discarded. -/
theorem connect_resets_queue_and_subscriptions (ch : PushChannel)
    (client_id : String) (channel_type : ChannelType) (hasCallback : Bool)
    (metadata : Option (List (String × PyVal))) (now : Time) :
    (dlookup (ch.connect client_id channel_type hasCallback metadata now).1.queues
        client_id = some [])
    ∧ (dlookup (ch.connect client_id channel_type hasCallback metadata now).1.clients
        client_id
        = some (ch.connect client_id channel_type hasCallback metadata now).2)
    ∧ ((ch.connect client_id channel_type hasCallback metadata now).2.subscribed_views
        = []) := by
  refine ⟨?_, ?_, rfl⟩
  · show dlookup (dset ch.queues client_id []) client_id = some []
    rw [dlookup_dset]
    simp
  · show dlookup (dset ch.clients client_id _) client_id = some _
    rw [dlookup_dset]
    simp
    rfl

/-- C2 witness. -/
theorem save_upserts_and_bumps_witness :
    ((exStore.save exEmptyView 5).2.version = exEmptyView.version + 1)
    ∧ ((exStore.save exEmptyView 5).2.updated_at = 5)
    ∧ ((exStore.save exEmptyView 5).1.get exEmptyView.id = some (exStore.save exEmptyView 5).2)
    ∧ ((exStore.save exEmptyView 5).1.get "other" = exStore.get "other") :=
  ⟨(save_upserts_and_bumps exStore exEmptyView 5).1,
   (save_upserts_and_bumps exStore exEmptyView 5).2.1,
   (save_upserts_and_bumps exStore exEmptyView 5).2.2.2.1,
   (save_upserts_and_bumps exStore exEmptyView 5).2.2.2.2.1 "other" (by decide)⟩

/-! ### History lemmas (`record_update` / `get_history`) -/

theorem record_update_history (s : InMemoryViewStore) (u : ViewUpdate) :
    (s.record_update u).history =
      if (s.history ++ [u]).length > 1000 then
        (s.history ++ [u]).drop ((s.history ++ [u]).length - 1000)
      else s.history ++ [u] := rfl

theorem drop_append_drop {α : Type} (X rest : List α) (j n : Nat) (hj : j ≤ X.length) :
    (X.drop j ++ rest).drop n = (X ++ rest).drop (j + n) := by
  rw [← List.drop_append_of_le_length hj, List.drop_drop]

theorem record_update_foldl_history (us : List ViewUpdate) :
    ∀ (s : InMemoryViewStore), s.history.length ≤ 1000 →
      (us.foldl (fun acc u => acc.record_update u) s).history
        = (s.history ++ us).drop ((s.history ++ us).length - 1000) := by
  induction us with
  | nil =>
      intro s hs
      simp [Nat.sub_eq_zero_of_le hs]
  | cons u rest ih =>
      intro s hs
      rw [List.foldl_cons]
      by_cases hlen : (s.history ++ [u]).length > 1000
      · have h1 : (s.record_update u).history
            = (s.history ++ [u]).drop ((s.history ++ [u]).length - 1000) := by
          rw [record_update_history, if_pos hlen]
        have hlen1000 : (s.record_update u).history.length = 1000 := by
          rw [h1, List.length_drop]
          omega
        rw [ih (s.record_update u) (le_of_eq hlen1000), h1]
        have hassoc : s.history ++ (u :: rest) = (s.history ++ [u]) ++ rest := by
          simp
        rw [hassoc]
        rw [drop_append_drop (s.history ++ [u]) rest _ _ (by omega)]
        have hidx : ((s.history ++ [u]).length - 1000)
              + (((s.history ++ [u]).drop ((s.history ++ [u]).length - 1000) ++ rest).length
                  - 1000)
            = ((s.history ++ [u]) ++ rest).length - 1000 := by
          simp only [List.length_append, List.length_drop]
          omega
        rw [hidx]
      · have h1 : (s.record_update u).history = s.history ++ [u] := by
          rw [record_update_history, if_neg hlen]
        have h2 : (s.record_update u).history.length ≤ 1000 := by
          rw [h1]
          omega
        rw [ih (s.record_update u) h2, h1]
        have hassoc : (s.history ++ [u]) ++ rest = s.history ++ (u :: rest) := by
          simp
        rw [hassoc]

/-- C6 (amended): after `m` `record_update` calls on a fresh store the
history is the last `min m 1000` updates in insertion order (the claim's
FIFO bound, with the code's hard-wired cap `N = 1000`); and for a
*positive* `limit`, `get_history` returns a suffix — hence the most
recent entries, chronologically ordered — of the truthiness-filtered
history (`None` and `""` mean unfiltered), of length `min limit (length
of the filtered history)`.  The amendments forced by the code: the cap
only holds for `limit ≥ 1` (`history[-0:]` is the whole list, see the
counterexample), and an empty-string `view_id` does not filter. -/
theorem history_bound_and_get_history (us : List ViewUpdate) (vid : Option String)
    (limit : Nat) (hl : 0 < limit) (s : InMemoryViewStore) :
    ((us.foldl (fun acc u => acc.record_update u) ({} : InMemoryViewStore)).history
        = us.drop (us.length - 1000))
    ∧ (s.get_history vid limit <:+ pyHistFilter s.history vid)
    ∧ ((s.get_history vid limit).length = min limit (pyHistFilter s.history vid).length) := by
  have hform : s.get_history vid limit
      = if limit = 0 then pyHistFilter s.history vid
        else (pyHistFilter s.history vid).drop ((pyHistFilter s.history vid).length - limit) :=
    rfl
  have hne : ¬ limit = 0 := by omega
  refine ⟨?_, ?_, ?_⟩
  · have := record_update_foldl_history us ({} : InMemoryViewStore) (by simp)
    simpa using this
  · rw [hform, if_neg hne]
    exact List.drop_suffix _ _
  · rw [hform, if_neg hne, List.length_drop]
    omega

/-- C6 witness for the amended theorem. -/
theorem history_bound_and_get_history_witness :
    (([exU1, exU2].foldl (fun acc u => acc.record_update u) ({} : InMemoryViewStore)).history
        = [exU1, exU2].drop ([exU1, exU2].length - 1000))
    ∧ (exStore.get_history (some "v1") 1 <:+ pyHistFilter exStore.history (some "v1"))
    ∧ ((exStore.get_history (some "v1") 1).length
        = min 1 (pyHistFilter exStore.history (some "v1")).length) :=
  history_bound_and_get_history [exU1, exU2] (some "v1") 1 (by decide) exStore

/-- C6 counterexample to the claim as stated: `get_history` with
`limit = 0` is *not* capped at the last `0` entries — the Python slice
`history[-0:]` is `history[0:]`, so all retained updates come back
(here 2 of them). -/
theorem get_history_limit_zero_returns_all :
    (((({} : InMemoryViewStore).record_update exU1).record_update exU2).get_history
        none 0).length = 2 := rfl

/-! ### Push fan-out lemmas -/

theorem deliverTo_foldl (u : ViewUpdate) (cbOk : String → Bool) (now : Time)
    (entries : List (String × ClientConnection)) :
    ∀ (ch₀ : PushChannel) (r₀ : Nat) (d₀ : List String),
      (∀ e ∈ entries, e.2.hasCallback = false → (dlookup ch₀.queues e.1).isSome = true) →
      ((entries.foldl (deliverTo u cbOk now) (ch₀, r₀, d₀)).2.2
          = d₀ ++ (entries.filter (pushDelivers u cbOk)).map Prod.fst)
      ∧ ((entries.foldl (deliverTo u cbOk now) (ch₀, r₀, d₀)).2.1
          = r₀ + (entries.filter (pushDelivers u cbOk)).length)
      ∧ (∀ k, (dlookup (entries.foldl (deliverTo u cbOk now) (ch₀, r₀, d₀)).1.queues k).isSome
          = (dlookup ch₀.queues k).isSome) := by
  induction entries with
  | nil =>
      intro ch₀ r₀ d₀ _
      simp
  | cons e rest ih =>
      intro ch₀ r₀ d₀ hq
      obtain ⟨cid, conn⟩ := e
      have hqrest : ∀ e ∈ rest, e.2.hasCallback = false →
          (dlookup ch₀.queues e.1).isSome = true :=
        fun e he => hq e (List.mem_cons_of_mem _ he)
      rw [List.foldl_cons]
      by_cases hw : wantsUpdate conn u.view_id
      · by_cases hcb : conn.hasCallback
        · by_cases hok : cbOk cid
          · -- callback client, callback succeeds
            have hstep : deliverTo u cbOk now (ch₀, r₀, d₀) (cid, conn)
                = ({ ch₀ with
                      clients := dset ch₀.clients cid { conn with last_activity := now } },
                   r₀ + 1, d₀ ++ [cid]) := by
              simp [deliverTo, hw, hcb, hok]
            have hfilter : (((cid, conn) :: rest).filter (pushDelivers u cbOk))
                = (cid, conn) :: rest.filter (pushDelivers u cbOk) := by
              simp [List.filter_cons, pushDelivers, hw, hcb, hok]
            rw [hstep, hfilter]
            obtain ⟨ha, hb, hc⟩ := ih
              ({ ch₀ with
                  clients := dset ch₀.clients cid { conn with last_activity := now } })
              (r₀ + 1) (d₀ ++ [cid])
              (by intro e he hcbe; exact hqrest e he hcbe)
            refine ⟨?_, ?_, ?_⟩
            · rw [ha]; simp
            · rw [hb]; simp [List.length_cons]; omega
            · intro k; exact hc k
          · -- callback client, callback raises: caught, nothing counted
            have hstep : deliverTo u cbOk now (ch₀, r₀, d₀) (cid, conn) = (ch₀, r₀, d₀) := by
              simp [deliverTo, hw, hcb, hok]
            have hfilter : (((cid, conn) :: rest).filter (pushDelivers u cbOk))
                = rest.filter (pushDelivers u cbOk) := by
              simp [List.filter_cons, pushDelivers, hw, hcb, hok]
            rw [hstep, hfilter]
            exact ih _ r₀ d₀ hqrest
        · -- queue client: the queue exists by `hq`, `put` succeeds
          have hqe : (dlookup ch₀.queues cid).isSome = true := by
            have := hq (cid, conn) (List.mem_cons_self _ _)
            simpa [hcb] using this
          obtain ⟨q, hqeq⟩ := Option.isSome_iff_exists.mp hqe
          have hstep : deliverTo u cbOk now (ch₀, r₀, d₀) (cid, conn)
              = ({ ch₀ with
                    queues := dset ch₀.queues cid (q ++ [u]),
                    clients := dset ch₀.clients cid { conn with last_activity := now } },
                 r₀ + 1, d₀ ++ [cid]) := by
            simp [deliverTo, hw, hcb, hqeq]
          have hfilter : (((cid, conn) :: rest).filter (pushDelivers u cbOk))
              = (cid, conn) :: rest.filter (pushDelivers u cbOk) := by
            simp [List.filter_cons, pushDelivers, hw, hcb]
          have hpres : ∀ k,
              (dlookup (dset ch₀.queues cid (q ++ [u])) k).isSome
                = (dlookup ch₀.queues k).isSome := by
            intro k
            exact isSome_dlookup_dset ch₀.queues cid (q ++ [u]) k hqe
          rw [hstep, hfilter]
          obtain ⟨ha, hb, hc⟩ := ih
            ({ ch₀ with
                queues := dset ch₀.queues cid (q ++ [u]),
                clients := dset ch₀.clients cid { conn with last_activity := now } })
            (r₀ + 1) (d₀ ++ [cid])
            (by
              intro e he hcbe
              show (dlookup (dset ch₀.queues cid (q ++ [u])) e.1).isSome = true
              rw [hpres e.1]
              exact hqrest e he hcbe)
          refine ⟨?_, ?_, ?_⟩
          · rw [ha]; simp
          · rw [hb]; simp [List.length_cons]; omega
          · intro k
            rw [hc k]
            exact hpres k
      · -- not subscribed: skipped
        have hstep : deliverTo u cbOk now (ch₀, r₀, d₀) (cid, conn) = (ch₀, r₀, d₀) := by
          simp [deliverTo, hw]
        have hfilter : (((cid, conn) :: rest).filter (pushDelivers u cbOk))
            = rest.filter (pushDelivers u cbOk) := by
          simp [List.filter_cons, pushDelivers, hw]
        rw [hstep, hfilter]
        exact ih _ r₀ d₀ hqrest

/-- C4: for every push, the clients delivered to are exactly the
connected clients whose subscription set contains the update's
`view_id` or the wildcard `"*"`, in their stored order — provided the
channel is well-formed (every queue-mode client has a queue, which
`connect`/`disconnect` guarantee) and no subscribed client's callback
raises (delivery failure is C5's concern). -/
theorem push_delivers_exactly_subscribed (ch : PushChannel) (u : ViewUpdate)
    (cbOk : String → Bool) (bcOk : Nat → Bool) (now : Time)
    (hwf : ∀ e ∈ ch.clients, e.2.hasCallback = false →
      (dlookup ch.queues e.1).isSome = true)
    (hok : ∀ e ∈ ch.clients, wantsUpdate e.2 u.view_id = true → cbOk e.1 = true) :
    (ch.push u cbOk bcOk now).delivered
      = (ch.clients.filter (fun e => wantsUpdate e.2 u.view_id)).map Prod.fst := by
  have hfilter : ch.clients.filter (pushDelivers u cbOk)
      = ch.clients.filter (fun e => wantsUpdate e.2 u.view_id) := by
    refine List.filter_congr ?_
    intro e he
    by_cases hw : wantsUpdate e.2 u.view_id
    · simp [pushDelivers, hw, hok e he hw]
    · simp [pushDelivers, hw]
  have := (deliverTo_foldl u cbOk now ch.clients ch 0 [] hwf).1
  show (ch.clients.foldl (deliverTo u cbOk now) (ch, 0, [])).2.2 = _
  rw [this, hfilter]
  simp

/-- C4 witness: client `A` is subscribed to `"v1"`, client `B` to the
wildcard `"*"`; a push for `"v1"` is delivered to both, a push for
`"v2"` only to `B`. -/
theorem push_delivers_exactly_subscribed_witness :
    ((exChannelAB.push exU1 (fun _ => true) (fun _ => true) 1).delivered = ["A", "B"])
    ∧ ((exChannelAB.push exU2 (fun _ => true) (fun _ => true) 1).delivered = ["B"]) :=
  ⟨(push_delivers_exactly_subscribed exChannelAB exU1 (fun _ => true) (fun _ => true) 1
      (by decide) (by decide)).trans (by rfl),
   (push_delivers_exactly_subscribed exChannelAB exU2 (fun _ => true) (fun _ => true) 1
      (by decide) (by decide)).trans (by rfl)⟩

/-- C5: delivery isolation.  On a well-formed channel, a client whose
callback raises is simply skipped: the returned `delivered_count`
counts exactly the subscribed clients whose delivery succeeded
(`pushDelivers`), the remaining subscribed clients still receive the
update (the `delivered` list is the full filtered list, failures or
not), every registered broadcast callback is invoked regardless of
subscription, and the result of `push` does not depend on whether the
broadcast callbacks raise (`bcOk` vs `bcOk'`) — their failures are
caught inside `push` and never reach the caller. -/
theorem push_failure_isolated (ch : PushChannel) (u : ViewUpdate)
    (cbOk : String → Bool) (bcOk bcOk' : Nat → Bool) (now : Time)
    (hwf : ∀ e ∈ ch.clients, e.2.hasCallback = false →
      (dlookup ch.queues e.1).isSome = true) :
    ((ch.push u cbOk bcOk now).recipients
        = (ch.clients.filter (pushDelivers u cbOk)).length)
    ∧ ((ch.push u cbOk bcOk now).delivered
        = (ch.clients.filter (pushDelivers u cbOk)).map Prod.fst)
    ∧ ((ch.push u cbOk bcOk now).broadcastInvoked = ch.broadcast_callbacks)
    ∧ (ch.push u cbOk bcOk now = ch.push u cbOk bcOk' now) := by
  obtain ⟨ha, hb, _⟩ := deliverTo_foldl u cbOk now ch.clients ch 0 [] hwf
  refine ⟨?_, ?_, rfl, rfl⟩
  · show (ch.clients.foldl (deliverTo u cbOk now) (ch, 0, [])).2.1 = _
    rw [hb]
    omega
  · show (ch.clients.foldl (deliverTo u cbOk now) (ch, 0, [])).2.2 = _
    rw [ha]
    simp

/-- C5 witness: `A` and `B` are both subscribed to `"v1"`; `A`'s
callback raises, `B`'s succeeds.  `push` still delivers to `B`, counts
only `B`, and invokes both broadcast callbacks. -/
theorem push_failure_isolated_witness :
    ((exChannelFail.push exU1 (fun cid => cid == "B") (fun _ => false) 1).recipients = 1)
    ∧ ((exChannelFail.push exU1 (fun cid => cid == "B") (fun _ => false) 1).delivered = ["B"])
    ∧ ((exChannelFail.push exU1 (fun cid => cid == "B") (fun _ => false) 1).broadcastInvoked
        = [0, 1])
    ∧ (exChannelFail.push exU1 (fun cid => cid == "B") (fun _ => false) 1
        = exChannelFail.push exU1 (fun cid => cid == "B") (fun _ => true) 1) :=
  ⟨((push_failure_isolated exChannelFail exU1 (fun cid => cid == "B") (fun _ => false)
      (fun _ => true) 1 (by decide)).1).trans (by rfl),
   ((push_failure_isolated exChannelFail exU1 (fun cid => cid == "B") (fun _ => false)
      (fun _ => true) 1 (by decide)).2.1).trans (by rfl),
   ((push_failure_isolated exChannelFail exU1 (fun cid => cid == "B") (fun _ => false)
      (fun _ => true) 1 (by decide)).2.2.1).trans (by rfl),
   (push_failure_isolated exChannelFail exU1 (fun cid => cid == "B") (fun _ => false)
      (fun _ => true) 1 (by decide)).2.2.2⟩

/-! ### Registry `create_component` lemmas -/

theorem registry_create_component_props (reg : ComponentRegistry) (cid : String)
    (ct : ComponentType) (p : List (String × PyVal)) (s : List (String × String))
    (now : Time) (hp : (p.map Prod.fst).Nodup) (k : String) :
    dlookup (reg.create_component cid ct (some p) (some s) now).props k =
      match dlookup p k with
      | some v => some v
      | none =>
          match reg.get ct with
          | some d => dlookup d.default_props k
          | none => none := by
  unfold ComponentRegistry.create_component ComponentRegistry.get
  by_cases hpe : p = []
  · subst hpe
    cases hdefn : dlookup reg.components ct <;>
      simp [hdefn, pyTruthy, dlookup, UIComponent.props]
  · have htr : pyTruthy (some p) = true := by
      simp [pyTruthy, hpe]
    cases hdefn : dlookup reg.components ct
    all_goals
      simp [hdefn, htr, pyOrEmpty, UIComponent.props, dlookup_dupdate _ p hp k, dlookup]
    all_goals cases hdl : dlookup p k
    all_goals simp [hdl]

theorem registry_create_component_styles (reg : ComponentRegistry) (cid : String)
    (ct : ComponentType) (p : List (String × PyVal)) (s : List (String × String))
    (now : Time) (hs : (s.map Prod.fst).Nodup) (k : String) :
    dlookup (reg.create_component cid ct (some p) (some s) now).styles k =
      match dlookup s k with
      | some v => some v
      | none =>
          match reg.get ct with
          | some d => dlookup d.default_styles k
          | none => none := by
  unfold ComponentRegistry.create_component ComponentRegistry.get
  by_cases hse : s = []
  · subst hse
    cases hdefn : dlookup reg.components ct <;>
      simp [hdefn, pyTruthy, dlookup, UIComponent.styles]
  · have htr : pyTruthy (some s) = true := by
      simp [pyTruthy, hse]
    cases hdefn : dlookup reg.components ct
    all_goals
      simp [hdefn, htr, pyOrEmpty, UIComponent.styles, dlookup_dupdate _ s hs k, dlookup]
    all_goals cases hdl : dlookup s k
    all_goals simp [hdl]

/-- C8: `create_component`.  Parsing fails — `ValueError`, the
caller-facing validation error — exactly when the type string is not a
member of the enum.  For a parseable type, creation always succeeds
(returning the registry's instantiation), and its props/styles are the
definition's defaults overridden key-by-key by the caller's values; a
type with no registered definition (the `none` branch, e.g. `button`)
contributes empty defaults rather than an error. -/
theorem create_component_parse_and_merge (m : ViewManager) (typeStr : String)
    (component_id : Option String) (fresh : String)
    (p : List (String × PyVal)) (s : List (String × String)) (now : Time)
    (hp : (p.map Prod.fst).Nodup) (hs : (s.map Prod.fst).Nodup) :
    ((m.create_component (.inl typeStr) (some p) (some s) component_id fresh now
        = .error .valueError) ↔ ComponentType.ofString typeStr = none)
    ∧ (∀ ct, ComponentType.ofString typeStr = some ct →
        (m.create_component (.inl typeStr) (some p) (some s) component_id fresh now
            = .ok (m.registry.create_component (pyOrFresh component_id fresh) ct
                (some p) (some s) now))
        ∧ (∀ k, dlookup (m.registry.create_component (pyOrFresh component_id fresh) ct
              (some p) (some s) now).props k =
            match dlookup p k with
            | some v => some v
            | none =>
                match m.registry.get ct with
                | some d => dlookup d.default_props k
                | none => none)
        ∧ (∀ k, dlookup (m.registry.create_component (pyOrFresh component_id fresh) ct
              (some p) (some s) now).styles k =
            match dlookup s k with
            | some v => some v
            | none =>
                match m.registry.get ct with
                | some d => dlookup d.default_styles k
                | none => none)) := by
  constructor
  · constructor
    · intro herr
      cases hparse : ComponentType.ofString typeStr with
      | none => rfl
      | some ct =>
          rw [show m.create_component (.inl typeStr) (some p) (some s) component_id fresh now
              = .ok (m.registry.create_component (pyOrFresh component_id fresh) ct
                  (some p) (some s) now) from by
            simp [ViewManager.create_component, hparse]] at herr
          exact absurd herr (by simp)
    · intro hparse
      simp [ViewManager.create_component, hparse]
  · intro ct hct
    refine ⟨by simp [ViewManager.create_component, hct], ?_, ?_⟩
    · intro k
      exact registry_create_component_props m.registry _ ct p s now hp k
    · intro k
      exact registry_create_component_styles m.registry _ ct p s now hs k

/-- C8 witness: `"button"` parses but has no builtin definition, so the
component is created with exactly the caller's props (empty defaults,
no error); `"nope"` does not parse and raises the validation error. -/
theorem create_component_parse_and_merge_witness :
    (ViewManager.init.create_component (.inl "button") (some [("x", PyVal.pyint 1)])
        (some []) none "cid-1" 3
      = .ok (UIComponent.mk "cid-1" .button [("x", PyVal.pyint 1)] [] [] 3 3))
    ∧ (ViewManager.init.create_component (.inl "nope") (some [("x", PyVal.pyint 1)])
        (some []) none "cid-1" 3 = .error .valueError) :=
  ⟨(((create_component_parse_and_merge ViewManager.init "button" none "cid-1"
        [("x", PyVal.pyint 1)] [] 3 (by decide) (by decide)).2 .button rfl).1).trans
      (by rfl),
   (create_component_parse_and_merge ViewManager.init "nope" none "cid-1"
        [("x", PyVal.pyint 1)] [] 3 (by decide) (by decide)).1.mpr rfl⟩

/-- C3: `update_component` on a present view and component returns the
found component mutated in place — its props/styles are its previous
maps with the supplied entries merged in key-by-key (a supplied key
wins, an unsupplied key is untouched) and its own `updated_at` is
stamped with the current time. -/
theorem update_component_merges (m : ViewManager) (view_id component_id : String)
    (p : List (String × PyVal)) (s : List (String × String)) (now : Time)
    (cbOk : String → Bool) (bcOk : Nat → Bool) (view : UIView) (component : UIComponent)
    (hview : m.store.get view_id = some view)
    (hcomp : findComponent view.components component_id = some component)
    (hp : (p.map Prod.fst).Nodup) (hs : (s.map Prod.fst).Nodup) :
    ((m.update_component view_id component_id (some p) (some s) now cbOk bcOk).2
        = some (applyComponentUpdate (some p) (some s) now component))
    ∧ ((applyComponentUpdate (some p) (some s) now component).updated_at = now)
    ∧ (∀ k, dlookup (applyComponentUpdate (some p) (some s) now component).props k =
        match dlookup p k with
        | some v => some v
        | none => dlookup component.props k)
    ∧ (∀ k, dlookup (applyComponentUpdate (some p) (some s) now component).styles k =
        match dlookup s k with
        | some v => some v
        | none => dlookup component.styles k) := by
  refine ⟨?_, applyComponentUpdate_updated_at _ _ _ _, ?_, ?_⟩
  · simp [ViewManager.update_component, hview, hcomp]
  · intro k
    rw [applyComponentUpdate_props]
    by_cases hpe : p = []
    · subst hpe
      simp [pyTruthy, dlookup]
    · have htr : pyTruthy (some p) = true := by
        simp [pyTruthy, hpe]
      simp [htr, pyOrEmpty, dlookup_dupdate _ p hp k]
      cases hdl : dlookup p k
      all_goals simp [hdl]
  · intro k
    rw [applyComponentUpdate_styles]
    by_cases hse : s = []
    · subst hse
      simp [pyTruthy, dlookup]
    · have htr : pyTruthy (some s) = true := by
        simp [pyTruthy, hse]
      simp [htr, pyOrEmpty, dlookup_dupdate _ s hs k]
      cases hdl : dlookup s k
      all_goals simp [hdl]

/-- C3 witness — the spec's own example: updating
`properties={"value": 2}` on a component whose props are
`{"label": "L", "value": 1}` yields `{"label": "L", "value": 2}`, with
the component's `updated_at` stamped. -/
theorem update_component_merges_witness :
    (exManager.update_component "v1" "comp1" (some [("value", PyVal.pyint 2)]) (some [])
        7 (fun _ => true) (fun _ => true)).2
      = some (UIComponent.mk "comp1" .metric
          [("label", PyVal.pystr "L"), ("value", PyVal.pyint 2)] [] [] 0 7) :=
  ((update_component_merges exManager "v1" "comp1" [("value", PyVal.pyint 2)] [] 7
      (fun _ => true) (fun _ => true) exView exComponent rfl rfl
      (by decide) (by decide)).1).trans (by rfl)

/-- C7 (amended): when the view exists but the component id is absent,
`remove_component` returns `false` and the whole manager state is
unchanged — same view, same version, nothing recorded in history,
nothing pushed.  When the *view* is absent the function returns the
very same `false` (with the state unchanged), i.e. the two failures are
not distinguished — see the counterexample. -/
theorem remove_component_absent_is_noop (m : ViewManager) (view_id component_id : String)
    (now : Time) (cbOk : String → Bool) (bcOk : Nat → Bool) :
    (m.store.get view_id = none →
      m.remove_component view_id component_id now cbOk bcOk = (m, false))
    ∧ (∀ view, m.store.get view_id = some view →
        (∀ c ∈ view.components, c.id ≠ component_id) →
        m.remove_component view_id component_id now cbOk bcOk = (m, false)) := by
  constructor
  · intro hnone
    simp [ViewManager.remove_component, hnone]
  · intro view hview habsent
    have hfilter : view.components.filter (fun c => !decide (c.id = component_id))
        = view.components :=
      List.filter_eq_self.mpr (fun c hc => by simpa using habsent c hc)
    have hdset : dset m.store.views view_id view = m.store.views :=
      dset_of_dlookup_eq m.store.views view_id view hview
    simp [ViewManager.remove_component, hview]
    rw [if_pos habsent]
    simp [hfilter, hdset]

/-- C7 witness: removing an unknown component id from an existing view
returns `false` and leaves the manager untouched; so does removing from
a nonexistent view. -/
theorem remove_component_absent_is_noop_witness :
    (ViewManager.init.remove_component "v1" "c9" 0 (fun _ => true) (fun _ => true)
        = (ViewManager.init, false))
    ∧ (exManager.remove_component "v1" "does-not-exist" 0 (fun _ => true) (fun _ => true)
        = (exManager, false)) :=
  ⟨(remove_component_absent_is_noop ViewManager.init "v1" "c9" 0 (fun _ => true)
      (fun _ => true)).1 rfl,
   (remove_component_absent_is_noop exManager "v1" "does-not-exist" 0 (fun _ => true)
      (fun _ => true)).2 exView rfl (by decide)⟩

/-- C7 counterexample to the claim as stated: a missing *view* is not
surfaced as a failure distinct from a missing component — both calls
return the very same `false`. -/
theorem remove_component_view_missing_same_false :
    ((ViewManager.init.remove_component "v1" "does-not-exist" 0 (fun _ => true)
        (fun _ => true)).2 = false)
    ∧ ((exManagerEmptyV1.remove_component "v1" "does-not-exist" 0 (fun _ => true)
        (fun _ => true)).2 = false) :=
  ⟨rfl, rfl⟩

/-- C9 (amended): for a connected queue-mode client, `get_update` with
`timeout = 0` behaves exactly like an absent timeout — `if timeout:` is
falsy for both — blocking on an empty queue rather than returning
`None`; and a timed-out `None` can only arise from a *nonzero* timeout.
(Not only from a strictly positive one: a negative timeout is truthy
too and expires immediately — see the counterexample.) -/
theorem get_update_zero_timeout_blocks (ch : PushChannel) (client_id : String)
    (q : List ViewUpdate) (hq : dlookup ch.queues client_id = some q) :
    (ch.get_update client_id (some 0) = ch.get_update client_id none)
    ∧ (q = [] → (ch.get_update client_id none).1 = .blocks)
    ∧ (∀ t : Option ℚ, (ch.get_update client_id t).1 = .timesOut →
        ∃ x, t = some x ∧ x ≠ 0) := by
  unfold PushChannel.get_update
  rw [hq]
  refine ⟨?_, ?_, ?_⟩
  · cases q with
    | nil => simp
    | cons u rest => rfl
  · intro hqe
    subst hqe
    rfl
  · intro t ht
    cases q with
    | cons u rest => simp at ht
    | nil =>
        cases t with
        | none => simp at ht
        | some x =>
            by_cases hx : x = 0
            · subst hx
              simp at ht
            · exact ⟨x, rfl, hx⟩

/-- C9 witness: on the empty queue of connected client `"c1"`, a zero
timeout takes the same blocking branch as no timeout at all. -/
theorem get_update_zero_timeout_blocks_witness :
    (exChannelQueue.get_update "c1" (some 0) = exChannelQueue.get_update "c1" none)
    ∧ ((exChannelQueue.get_update "c1" none).1 = GetUpdateOutcome.blocks) :=
  ⟨(get_update_zero_timeout_blocks exChannelQueue "c1" [] rfl).1,
   (get_update_zero_timeout_blocks exChannelQueue "c1" [] rfl).2.1 rfl⟩

/-- C9 counterexample to the claim as stated: a *negative* timeout is
truthy, so `asyncio.wait_for` expires immediately and `get_update`
returns `None` — a `None` result produced by a timeout that is not
strictly positive. -/
theorem get_update_negative_timeout_times_out :
    ((exChannelQueue.get_update "c1" (some (-1))).1 = GetUpdateOutcome.timesOut)
    ∧ ¬ ((0 : ℚ) < -1) := by
  refine ⟨?_, by norm_num⟩
  have : ((-1 : ℚ) = 0) = False := by norm_num
  simp [PushChannel.get_update, exChannelQueue, dlookup, this]

end UIModule
